import Mathlib

/-!
Verification of the legal-document-analysis pipeline (`legal_agent_team.py`,
`testqdrant.py`) against its natural-language specification.  The source is
shallowly embedded: the Streamlit session dictionary becomes a record type,
the Qdrant vector store becomes an explicit store value threaded through the
operations, and Python exceptions become `Except`.
-/

namespace LegalLLM

/-- Distance metric of a vector collection (spec §3: cosine | dot | euclidean). -/
inductive Distance where
  | cosine
  | dot
  | euclidean
deriving DecidableEq, Repr

/-- A chunk record stored in the vector database (spec §3): chunk text,
embedding vector, source document identifier, chunk index. -/
structure ChunkRecord where
  docId : String
  chunkIndex : Nat
  text : String
  embedding : List Int
deriving DecidableEq, Repr

/-- A named collection in the vector store, with its configured
dimensionality, distance metric, and stored records. -/
structure Collection where
  name : String
  size : Nat
  distance : Distance
  records : List ChunkRecord
deriving DecidableEq, Repr

/-- The vector database: the set of collections held by the Qdrant service. -/
structure Store where
  collections : List Collection
deriving DecidableEq, Repr

/-- `get_collections`: the names of the existing collections
(`vector_db.client.get_collections()` in `init_qdrant`). -/
def Store.collectionNames (s : Store) : List String :=
  s.collections.map (fun c => c.name)

/-- `client.create_collection`: creates a fresh empty collection with the
given parameters; the Qdrant service rejects the call when a collection of
that name already exists (`testqdrant.py` lines 20-34: the client raises
`UnexpectedResponse` containing "already exists"). -/
def createCollection (s : Store) (name : String) (size : Nat)
    (distance : Distance) : Except String Store :=
  if name ∈ s.collectionNames then
    .error ("Collection " ++ name ++ " already exists")
  else
    .ok ⟨s.collections ++ [⟨name, size, distance, []⟩]⟩

/-- The collection-ensuring core of `init_qdrant` (`legal_agent_team.py`
lines 60-77): list the collections; if "legal_knowledge" is absent, create
it with size 1536 and Cosine distance; if present, do nothing and return
success.  The code performs no validation of an existing collection's
parameters. -/
def initQdrantEnsure (s : Store) : Except String Store :=
  if "legal_knowledge" ∈ s.collectionNames then
    .ok s
  else
    createCollection s "legal_knowledge" 1536 Distance.cosine

/-- Placeholder for the Phi `PDFKnowledgeBase` handle returned by
`process_document`. -/
structure KnowledgeBase where
  path : String
deriving DecidableEq, Repr

/-- An agent as constructed in `main` (`legal_agent_team.py` lines 195-257):
a name, a role, the names of its team members (empty for the three
specialists), and whether it searches the knowledge base. -/
structure Agent where
  name : String
  role : String
  team : List String
  searchKnowledge : Bool
deriving DecidableEq, Repr

/-- Placeholder for the Phi `Qdrant` wrapper held in
`st.session_state.vector_db`. -/
structure VectorDB where
  collection : String
  url : String
deriving DecidableEq, Repr

/-- The Streamlit session state as initialized by `init_session_state`
(`legal_agent_team.py` lines 12-25): exactly six fields, each `None`
initially. -/
structure AppState where
  openai_api_key : Option String
  qdrant_api_key : Option String
  qdrant_url : Option String
  vector_db : Option VectorDB
  legal_team : Option Agent
  knowledge_base : Option KnowledgeBase
deriving DecidableEq, Repr

/-- `init_session_state`: every field starts as `None`. -/
def initSessionState : AppState :=
  ⟨none, none, none, none, none, none⟩

/-- The "Clear Credentials" button handler (`legal_agent_team.py` lines
428-433): sets `qdrant_api_key`, `qdrant_url`, `vector_db` and
`openai_api_key` to `None`; no other session field is touched. -/
def clearCredentials (s : AppState) : AppState :=
  { s with qdrant_api_key := none
           qdrant_url := none
           vector_db := none
           openai_api_key := none }

/-- The debug panel string built by the "Show Connection Details" checkbox
(`legal_agent_team.py` lines 421-426): shows the Qdrant URL, the first 8
characters of the Qdrant API key followed by "... (truncated)", and the
vector-db status.  Requires the keys to be present (the Python slice would
fail on `None`). -/
def debugInfo (url : String) (qdrantKey : String) (vectorDbSet : Bool) : String :=
  "URL: " ++ url ++ "\nAPI Key: " ++ qdrantKey.take 8 ++
    "... (truncated)\nVector DB Status: " ++
    (if vectorDbSet then "Initialized" else "Not Initialized")

/-- The debug display as invoked from the session state: it reads only
`qdrant_url`, `qdrant_api_key` and `vector_db`; the OpenAI key is never
passed to it. -/
def showConnectionDetails (s : AppState) : String :=
  debugInfo (s.qdrant_url.getD "") (s.qdrant_api_key.getD "") s.vector_db.isSome

/-! ### Document ingestion pipeline

`process_document` delegates extraction, chunking, embedding and vector
writes to the phi library (`PDFKnowledgeBase`, `PDFReader`,
`OpenAIEmbedder`), whose code is not part of this repository; those parts
are modelled from the spec (§4.2). -/

/-- An uploaded PDF file as the pipeline sees it: its name, whether it is
corrupted/unreadable, and the chunk texts a successful extraction yields. -/
structure UploadedFile where
  name : String
  corrupted : Bool
  chunkTexts : List String
deriving DecidableEq, Repr

/-- Error taxonomy of the ingestion pipeline (spec §7): `DocumentError` for
an unreadable upload, `EmbeddingError` for an embedding-service failure. -/
inductive IngestError where
  | documentError (message : String)
  | embeddingError (message : String)
deriving DecidableEq, Repr

/-- Modelled from the spec: text extraction, done by phi's `PDFReader`
(not in src).  "extraction failure (corrupt/unsupported file) is reported
as `DocumentError` and aborts before any writes". -/
def extractChunks (f : UploadedFile) : Except IngestError (List String) :=
  if f.corrupted then .error (.documentError f.name) else .ok f.chunkTexts

/-- Upsert a record into a collection: replaces any record of the same
identity (document identifier, chunk index) — spec §3 "identity =
(document identifier, chunk index)", §4.1 "inserts or replaces records by
identity". -/
def Collection.upsertRec (c : Collection) (r : ChunkRecord) : Collection :=
  { c with records :=
      (c.records.filter fun q =>
        !(q.docId == r.docId && q.chunkIndex == r.chunkIndex)) ++ [r] }

/-- Upsert a record into the named collection of the store. -/
def Store.upsertRec (s : Store) (cname : String) (r : ChunkRecord) : Store :=
  ⟨s.collections.map fun c => if c.name == cname then c.upsertRec r else c⟩

/-- Recreation of a collection: wipes its prior contents (spec §3
"recreation wipes prior contents"). -/
def Store.wipe (s : Store) (cname : String) : Store :=
  ⟨s.collections.map fun c =>
    if c.name == cname then { c with records := [] } else c⟩

/-- Modelled from the spec: the embed-and-upsert loop of `ingest` (§4.2),
done inside phi's `knowledge_base.load()` (not in src).  One embedding per
chunk via the external embedding service (`embedSvc`; `none` is a service
failure); on the first embedding failure it aborts the remaining chunks but
chunks already upserted are not rolled back, so the error carries the store
reached at the abort point. -/
def upsertChunks (embedSvc : String → Option (List Int)) (docId : String) :
    List String → Nat → Store → Except (IngestError × Store) Store
  | [], _, s => .ok s
  | t :: ts, i, s =>
    match embedSvc t with
    | none => .error (.embeddingError t, s)
    | some v =>
        upsertChunks embedSvc docId ts (i + 1)
          (s.upsertRec "legal_knowledge" ⟨docId, i, t, v⟩)

/-- Modelled from the spec: `ingest(file_bytes, document_id)` (§4.2) —
extract text, split into chunks, then embed and upsert each chunk into the
"legal_knowledge" collection.  `recreate` is the `recreate_vector_db` flag
`process_document` passes to the knowledge base: when set, the collection's
prior contents are wiped before the new writes.  Extraction happens before
any store interaction ("aborts before any writes"). -/
def ingest (embedSvc : String → Option (List Int)) (f : UploadedFile)
    (docId : String) (recreate : Bool) (s : Store) :
    Except (IngestError × Store) Store :=
  match extractChunks f with
  | .error e => .error (e, s)
  | .ok chunks =>
      let s1 := if recreate then s.wipe "legal_knowledge" else s
      upsertChunks embedSvc docId chunks 0 s1

/-- The store the pipeline leaves behind, whether ingestion succeeded or
aborted partway. -/
def ingestFinalStore : Except (IngestError × Store) Store → Store
  | .ok s => s
  | .error (_, s) => s

/-- Whether a record is stored in the named collection. -/
def Store.hasRecord (s : Store) (cname : String) (r : ChunkRecord) : Prop :=
  ∃ c ∈ s.collections, c.name = cname ∧ r ∈ c.records

instance (s : Store) (cname : String) (r : ChunkRecord) :
    Decidable (s.hasRecord cname r) :=
  List.decidableBEx _ s.collections

/-! ### Knowledge retriever (read path) -/

/-- Similarity score of two embedding vectors. -/
def dotScore (v w : List Int) : Int :=
  ((v.zip w).map fun p => p.1 * p.2).sum

/-- Ranking order of scored records: decreasing similarity, ties broken by
lower chunk index (spec §4.1). -/
def ranksBefore (a b : ChunkRecord × Int) : Bool :=
  b.2 < a.2 || (a.2 == b.2 && a.1.chunkIndex < b.1.chunkIndex)

/-- Insert a scored record into an already ranked list. -/
def insertRanked (x : ChunkRecord × Int) :
    List (ChunkRecord × Int) → List (ChunkRecord × Int)
  | [] => [x]
  | y :: ys => if ranksBefore x y then x :: y :: ys else y :: insertRanked x ys

/-- Rank a list of scored records. -/
def rankedList (scored : List (ChunkRecord × Int)) : List (ChunkRecord × Int) :=
  scored.foldr insertRanked []

/-- Modelled from the spec: `search(query_vector, top_k)` (§4.1), served by
the Qdrant client (not in src) — up to `top_k` records of the named
collection by decreasing similarity. -/
def Store.search (s : Store) (cname : String) (qv : List Int) (k : Nat) :
    List ChunkRecord :=
  let recs := ((s.collections.filter fun c => c.name == cname).map
    fun c => c.records).flatten
  ((rankedList (recs.map fun r => (r, dotScore qv r.embedding))).take k).map
    fun p => p.1

/-- Modelled from the spec: `retrieve(query_text, top_k)` (§4.3) — embeds
the query and searches; a pure read path, returned together with the
(unmodified) store it read from. -/
def retrieve (embedSvc : String → Option (List Int)) (s : Store) (q : String)
    (k : Nat) : Except IngestError (List ChunkRecord) × Store :=
  (match embedSvc q with
   | none => .error (.embeddingError q)
   | some qv => .ok (s.search "legal_knowledge" qv k), s)

/-! ### Agent responses and their display -/

/-- One message of a structured agent-response message sequence. -/
structure Message where
  role : String
  content : Option String
deriving DecidableEq, Repr

/-- An agent response (spec §3): textual content (possibly absent or
empty) and a structured message sequence. -/
structure RunResponse where
  content : Option String
  messages : List Message
deriving DecidableEq, Repr

/-- Python truthiness of an optional string: `None` and `""` are falsy. -/
def truthy : Option String → Bool
  | none => false
  | some s => !(s == "")

/-- Python `str()` of an optional string as an f-string interpolates it:
`None` prints as "None". -/
def pyStr : Option String → String
  | none => "None"
  | some s => s

/-- The response-display logic of `main` (`legal_agent_team.py` lines
372-379, repeated at 390-395 and 406-411): if `response.content` is truthy,
display it; otherwise display the content of every message in the sequence
whose role is "assistant" and whose content is truthy, in order. -/
def displayResponse (r : RunResponse) : List String :=
  if truthy r.content then
    [pyStr r.content]
  else
    (r.messages.filter fun m => m.role == "assistant" && truthy m.content).map
      fun m => pyStr m.content

/-- The display rule as the spec's data model words it, for comparison:
content is authoritative when present; otherwise the last assistant message
in the sequence is the authoritative one. -/
def displayLastAssistant (r : RunResponse) : List String :=
  if truthy r.content then
    [pyStr r.content]
  else
    match (r.messages.filter fun m =>
        m.role == "assistant" && truthy m.content).getLast? with
    | none => []
    | some m => [pyStr m.content]

/-! ### Document upload handler (agent-team construction) -/

/-- The "Legal Researcher" agent of `main` (lines 195-210). -/
def legalResearcher : Agent :=
  ⟨"Legal Researcher", "Legal research specialist", [], true⟩

/-- The "Contract Analyst" agent of `main` (lines 212-224). -/
def contractAnalyst : Agent :=
  ⟨"Contract Analyst", "Contract analysis specialist", [], true⟩

/-- The "Legal Strategist" agent of `main` (lines 226-238). -/
def legalStrategist : Agent :=
  ⟨"Legal Strategist", "Legal strategy specialist", [], true⟩

/-- The "Legal Team Lead" agent of `main` (lines 241-257), coordinating the
three specialists. -/
def legalTeamLead : Agent :=
  ⟨"Legal Team Lead", "Legal team coordinator",
    ["Legal Researcher", "Contract Analyst", "Legal Strategist"], true⟩

/-- The document-upload handler of `main` (lines 188-262): runs
`process_document` (its outcome is `procResult`); on success stores the
knowledge base, constructs the three specialist agents and the team lead,
and stores the team handle; on any exception only an error is displayed —
the session state is left untouched and no agent is constructed.  Returns
the new session state and the list of agents constructed. -/
def handleUpload (procResult : Except String KnowledgeBase) (s : AppState) :
    AppState × List Agent :=
  match procResult with
  | .error _ => (s, [])
  | .ok kb =>
      ({ s with knowledge_base := some kb, legal_team := some legalTeamLead },
       [legalResearcher, contractAnalyst, legalStrategist, legalTeamLead])

/-! ### Analysis handler (three-stage output) -/

/-- The key-points follow-up query of `main` (lines 383-389): built from
the first response's `content` and the analysis type's agent list. -/
def keyPointsQuery (prior : Option String) (agents : String) : String :=
  "Based on this previous analysis:\n" ++ pyStr prior ++
  "\nPlease summarize the key points in bullet points.\nFocus on insights from: "
  ++ agents

/-- The recommendations follow-up query of `main` (lines 399-405): also
built from the first response's `content`, not from the key-points
response. -/
def recommendationsQuery (prior : Option String) (agents : String) : String :=
  "Based on this previous analysis:\n" ++ pyStr prior ++
  "\nWhat are your key recommendations based on the analysis, the best course of action?\nProvide specific recommendations from: "
  ++ agents

/-- The Analyze button handler of `main` (lines 342-414): one try block
that runs the lead team on the combined query, displays the analysis, then
issues the key-points and recommendations follow-ups, each displayed as it
arrives.  An exception anywhere jumps to the handler at line 413, which
appends an error display; output already rendered stays rendered.  `team`
is the external LLM call `st.session_state.legal_team.run`.  Returns the
queries issued (in order) and the displayed output (in order). -/
def analyzeHandler (team : String → Except String RunResponse)
    (combinedQuery : String) (agents : String) : List String × List String :=
  match team combinedQuery with
  | .error e => ([combinedQuery], ["Error during analysis: " ++ e])
  | .ok response =>
    let d1 := "### Detailed Analysis" :: displayResponse response
    let q2 := keyPointsQuery response.content agents
    match team q2 with
    | .error e =>
        ([combinedQuery, q2],
         d1 ++ ["### Key Points", "Error during analysis: " ++ e])
    | .ok kp =>
      let d2 := "### Key Points" :: displayResponse kp
      let q3 := recommendationsQuery response.content agents
      match team q3 with
      | .error e =>
          ([combinedQuery, q2, q3],
           d1 ++ d2 ++ ["### Recommendations", "Error during analysis: " ++ e])
      | .ok rsp3 =>
          ([combinedQuery, q2, q3],
           d1 ++ d2 ++ "### Recommendations" :: displayResponse rsp3)

/-! ### Temporary-file staging of `process_document` -/

/-- A filesystem entry: a directory and the file name within it (`none`
for the directory itself). -/
structure FsEntry where
  dir : String
  file : Option String
deriving DecidableEq, Repr

/-- The temporary staging of `process_document` (lines 104-137):
`with tempfile.TemporaryDirectory() as temp_dir:` creates the directory,
the uploaded file's bytes are written to a file inside it, the knowledge
base is built and loaded (`body` is that block's outcome — any exception
is re-wrapped as "Error processing document: ..."), and on leaving the
`with` block, for any outcome, everything under the temporary directory
is removed.  Returns the outcome and the filesystem left behind. -/
def processDocumentStaging (fs : List FsEntry) (tempDir : String)
    (fileName : String) (body : Except String KnowledgeBase) :
    Except String KnowledgeBase × List FsEntry :=
  let staged : List FsEntry :=
    FsEntry.mk tempDir (some fileName) :: FsEntry.mk tempDir none :: fs
  let result : Except String KnowledgeBase :=
    match body with
    | .ok kb => .ok kb
    | .error e => .error ("Error processing document: " ++ e)
  (result, staged.filter fun p => !(p.dir == tempDir))

/-- A concrete team model of an external LLM that answers the first query
and fails every follow-up (e.g. a rate limit hit after the first call). -/
def flakyTeam : String → Except String RunResponse := fun q =>
  if q == "analyze" then .ok ⟨some "the analysis", []⟩
  else .error "rate limit"

/-! ## Theorems -/

/-- Claim C10: the Clear Credentials operation resets exactly the four
session fields `openai_api_key`, `qdrant_api_key`, `qdrant_url` and
`vector_db` to `None`; the `legal_team` and `knowledge_base` fields are
left unchanged, so a previously built team survives credential clearing. -/
theorem clearCredentials_resets_exactly_four (s : AppState) :
    (clearCredentials s).openai_api_key = none ∧
    (clearCredentials s).qdrant_api_key = none ∧
    (clearCredentials s).qdrant_url = none ∧
    (clearCredentials s).vector_db = none ∧
    (clearCredentials s).legal_team = s.legal_team ∧
    (clearCredentials s).knowledge_base = s.knowledge_base := by
  simp [clearCredentials]

/-- Claim C9 (noninterference): the connection-details debug display
depends on the Qdrant API key only through its first 8 characters, and not
at all on the OpenAI API key — two session states agreeing on the Qdrant
URL, the vector-db status, and the first 8 characters of the Qdrant key
produce the same diagnostic output whatever their OpenAI keys or the rest
of their Qdrant keys are. -/
theorem debug_display_reveals_at_most_prefix (s t : AppState)
    (hurl : s.qdrant_url = t.qdrant_url)
    (hdb : s.vector_db.isSome = t.vector_db.isSome)
    (hkey : (s.qdrant_api_key.getD "").take 8 = (t.qdrant_api_key.getD "").take 8) :
    showConnectionDetails s = showConnectionDetails t := by
  simp [showConnectionDetails, debugInfo, hurl, hdb, hkey]

/-- Witness for C9: two states with different OpenAI keys and Qdrant keys
sharing only the 8-character prefix display identically. -/
theorem debug_display_reveals_at_most_prefix_witness :
    ((some "ABCDEFGH-SECRET-ONE" : Option String).getD "").take 8 =
      ((some "ABCDEFGH-SECRET-TWO" : Option String).getD "").take 8 ∧
    showConnectionDetails
      ⟨some "sk-first-openai-key", some "ABCDEFGH-SECRET-ONE",
        some "https://example:6333", none, none, none⟩ =
    showConnectionDetails
      ⟨some "sk-other-openai-key", some "ABCDEFGH-SECRET-TWO",
        some "https://example:6333", none, none, none⟩ :=
  ⟨by decide,
   debug_display_reveals_at_most_prefix _ _ rfl rfl (by decide)⟩

/-- Claim C5: when `process_document` fails, the upload handler constructs
no agent and does not set the team handle — the session state is returned
unchanged; the four agents, team lead included, are constructed exactly on
the success path. -/
theorem failed_ingestion_builds_no_team (s : AppState) (e : String)
    (kb : KnowledgeBase) :
    (handleUpload (.error e) s).1.legal_team = s.legal_team ∧
    (handleUpload (.error e) s).1 = s ∧
    (handleUpload (.error e) s).2 = [] ∧
    (handleUpload (.ok kb) s).2 =
      [legalResearcher, contractAnalyst, legalStrategist, legalTeamLead] ∧
    (handleUpload (.ok kb) s).1.legal_team = some legalTeamLead := by
  simp [handleUpload]

/-- Claim C8: the temporary directory and the staged copy of the uploaded
file are removed unconditionally by the scoped `with` block — whatever the
outcome of the processing body, the filesystem after `process_document`
equals the filesystem before, provided the temporary directory was fresh. -/
theorem temp_staging_cleanup (fs : List FsEntry) (tempDir fileName : String)
    (body : Except String KnowledgeBase)
    (hfresh : ∀ p ∈ fs, p.dir ≠ tempDir) :
    (processDocumentStaging fs tempDir fileName body).2 = fs := by
  have h2 : ∀ p ∈ fs, (!(p.dir == tempDir)) = true := by
    intro p hp
    simpa using hfresh p hp
  simp [processDocumentStaging, List.filter_eq_self.mpr h2]

/-- Witness for C8: a concrete staging run whose body fails still restores
the filesystem. -/
theorem temp_staging_cleanup_witness :
    (∀ p ∈ [FsEntry.mk "/home/user" (some "contract.pdf")],
      p.dir ≠ "/tmp/tmpabc123") ∧
    (processDocumentStaging [FsEntry.mk "/home/user" (some "contract.pdf")]
      "/tmp/tmpabc123" "contract.pdf" (.error "bad pdf")).2 =
      [FsEntry.mk "/home/user" (some "contract.pdf")] :=
  ⟨by decide,
   temp_staging_cleanup _ _ _ _ (by decide)⟩

/-- Claim C1: ingesting a corrupted file aborts before any write: the
pipeline reports a `DocumentError`, and the store it leaves behind is the
input store — zero chunk records written, collection state unchanged. -/
theorem corrupted_ingestion_aborts (embedSvc : String → Option (List Int))
    (f : UploadedFile) (docId : String) (recreate : Bool) (s : Store)
    (h : f.corrupted = true) :
    ingest embedSvc f docId recreate s =
      .error (.documentError f.name, s) ∧
    ingestFinalStore (ingest embedSvc f docId recreate s) = s := by
  simp [ingest, extractChunks, h, ingestFinalStore]

/-- Witness for C1: a concrete corrupted upload against a populated store. -/
theorem corrupted_ingestion_aborts_witness :
    (UploadedFile.mk "broken.pdf" true []).corrupted = true ∧
    ingest (fun _ => some [1]) (UploadedFile.mk "broken.pdf" true []) "doc1"
        true ⟨[⟨"legal_knowledge", 1536, Distance.cosine,
          [⟨"old", 0, "text", [1]⟩]⟩]⟩ =
      .error (.documentError "broken.pdf",
        ⟨[⟨"legal_knowledge", 1536, Distance.cosine,
          [⟨"old", 0, "text", [1]⟩]⟩]⟩) :=
  ⟨rfl, (corrupted_ingestion_aborts _ _ _ _ _ rfl).1⟩

/-- Claim C4: the collection-ensuring operation is idempotent — after any
successful call, a second call returns success on the very same store (the
collection is neither created nor modified again, and nothing is raised). -/
theorem initQdrantEnsure_idempotent (s s1 : Store)
    (h : initQdrantEnsure s = .ok s1) :
    initQdrantEnsure s1 = .ok s1 := by
  by_cases hm : "legal_knowledge" ∈ s.collectionNames
  · simp [initQdrantEnsure, hm] at h
    subst h
    simp [initQdrantEnsure, hm]
  · simp [initQdrantEnsure, createCollection, hm] at h
    subst h
    simp [initQdrantEnsure, Store.collectionNames]

/-- Witness for C4: ensuring on an empty store creates the collection; the
second call is a no-op returning the same store. -/
theorem initQdrantEnsure_idempotent_witness :
    initQdrantEnsure ⟨[]⟩ =
      .ok ⟨[⟨"legal_knowledge", 1536, Distance.cosine, []⟩]⟩ ∧
    initQdrantEnsure ⟨[⟨"legal_knowledge", 1536, Distance.cosine, []⟩]⟩ =
      .ok ⟨[⟨"legal_knowledge", 1536, Distance.cosine, []⟩]⟩ :=
  ⟨rfl, initQdrantEnsure_idempotent ⟨[]⟩
    ⟨[⟨"legal_knowledge", 1536, Distance.cosine, []⟩]⟩ rfl⟩

/-- Counterexample for C3: a pre-existing "legal_knowledge" collection with
dimensionality 384 (≠ 1536) and euclidean distance is accepted without any
error — `init_qdrant` returns success and performs no validation, so the
claim that it "fails with a ConfigurationError whenever an existing
collection has mismatched dimensionality" is false on the code. -/
theorem initQdrant_no_validation_cex :
    (Collection.mk "legal_knowledge" 384 Distance.euclidean []).size ≠ 1536 ∧
    initQdrantEnsure ⟨[⟨"legal_knowledge", 384, Distance.euclidean, []⟩]⟩ =
      .ok ⟨[⟨"legal_knowledge", 384, Distance.euclidean, []⟩]⟩ :=
  ⟨by decide, rfl⟩

/-- Claim C3 (amended): when the collection already exists, `init_qdrant`
returns success immediately, accepting the existing collection as-is with
no validation of its dimensionality or distance metric; when the collection
is absent, it creates it with the requested parameters (size 1536, cosine
distance). -/
theorem initQdrantEnsure_behaviour (s : Store) :
    ("legal_knowledge" ∈ s.collectionNames → initQdrantEnsure s = .ok s) ∧
    ("legal_knowledge" ∉ s.collectionNames →
      initQdrantEnsure s = .ok ⟨s.collections ++
        [⟨"legal_knowledge", 1536, Distance.cosine, []⟩]⟩) := by
  constructor <;> intro h <;> simp [initQdrantEnsure, createCollection, h]

/-- Witness for the amended C3: both branches at concrete stores. -/
theorem initQdrantEnsure_behaviour_witness :
    ("legal_knowledge" ∈
      (Store.mk [⟨"legal_knowledge", 384, Distance.euclidean, []⟩]).collectionNames) ∧
    initQdrantEnsure ⟨[⟨"legal_knowledge", 384, Distance.euclidean, []⟩]⟩ =
      .ok ⟨[⟨"legal_knowledge", 384, Distance.euclidean, []⟩]⟩ ∧
    ("legal_knowledge" ∉ (Store.mk [⟨"other", 8, Distance.dot, []⟩]).collectionNames) ∧
    initQdrantEnsure ⟨[⟨"other", 8, Distance.dot, []⟩]⟩ =
      .ok ⟨[⟨"other", 8, Distance.dot, []⟩,
        ⟨"legal_knowledge", 1536, Distance.cosine, []⟩]⟩ :=
  ⟨by decide,
   (initQdrantEnsure_behaviour ⟨[⟨"legal_knowledge", 384, Distance.euclidean, []⟩]⟩).1
     (by decide),
   by decide,
   (initQdrantEnsure_behaviour ⟨[⟨"other", 8, Distance.dot, []⟩]⟩).2 (by decide)⟩

/-- Counterexample for C7: with absent textual content and two assistant
messages, the display logic shows the content of every assistant message
("A" then "B"), not only the last one ("B") as the claim states — the last
assistant message is not the single authoritative one. -/
theorem display_not_only_last_assistant_cex :
    displayResponse ⟨none, [⟨"assistant", some "A"⟩, ⟨"assistant", some "B"⟩]⟩
      = ["A", "B"] ∧
    displayLastAssistant
        ⟨none, [⟨"assistant", some "A"⟩, ⟨"assistant", some "B"⟩]⟩ = ["B"] ∧
    (["A", "B"] : List String) ≠ ["B"] :=
  ⟨rfl, rfl, by decide⟩

/-- Claim C7 (amended): the textual content field is authoritative for
display when present (truthy); otherwise every assistant message with
non-empty content in the structured sequence is displayed, in sequence
order — not only the last one. -/
theorem display_content_or_all_assistant (r : RunResponse) :
    (truthy r.content = true → displayResponse r = [pyStr r.content]) ∧
    (truthy r.content = false → ∀ m ∈ r.messages, m.role = "assistant" →
      truthy m.content = true → pyStr m.content ∈ displayResponse r) := by
  constructor
  · intro h
    simp [displayResponse, h]
  · intro h m hm hrole hcontent
    simp only [displayResponse, h, if_neg Bool.false_ne_true, List.mem_map]
    exact ⟨m, List.mem_filter.mpr ⟨hm, by simp [hrole, hcontent]⟩, rfl⟩

/-- Witness for the amended C7: a first (non-last) assistant message is
displayed in the fallback path. -/
theorem display_content_or_all_assistant_witness :
    truthy (RunResponse.mk none
      [⟨"assistant", some "A"⟩, ⟨"assistant", some "B"⟩]).content = false ∧
    pyStr (some "A") ∈ displayResponse
      ⟨none, [⟨"assistant", some "A"⟩, ⟨"assistant", some "B"⟩]⟩ :=
  ⟨rfl,
   (display_content_or_all_assistant
      ⟨none, [⟨"assistant", some "A"⟩, ⟨"assistant", some "B"⟩]⟩).2 rfl
     ⟨"assistant", some "A"⟩ (by simp) rfl rfl⟩

/-- Claim C6: whenever the first (aggregated analysis) call succeeds with
response `r`, every query the handler issues afterwards is built from `r`'s
content — the queries issued are always an initial segment of
`[combinedQuery, keyPointsQuery r.content agents, recommendationsQuery
r.content agents]`, so neither derived call feeds the other's output — and
the displayed output always begins with the rendered first analysis,
whatever the derived calls do (including failing). -/
theorem derived_calls_feed_first_analysis
    (team : String → Except String RunResponse) (q agents : String)
    (r : RunResponse) (h : team q = .ok r) :
    (∃ k, (analyzeHandler team q agents).1 =
      List.take k [q, keyPointsQuery r.content agents,
        recommendationsQuery r.content agents]) ∧
    (∃ rest, (analyzeHandler team q agents).2 =
      ("### Detailed Analysis" :: displayResponse r) ++ rest) := by
  unfold analyzeHandler
  rw [h]
  cases h2 : team (keyPointsQuery r.content agents) with
  | error e =>
      exact ⟨⟨2, by simp [h2]⟩,
        ⟨["### Key Points", "Error during analysis: " ++ e], by simp [h2]⟩⟩
  | ok kp =>
      cases h3 : team (recommendationsQuery r.content agents) with
      | error e =>
          exact ⟨⟨3, by simp [h2, h3]⟩,
            ⟨("### Key Points" :: displayResponse kp) ++
              ["### Recommendations", "Error during analysis: " ++ e],
             by simp [h2, h3]⟩⟩
      | ok rsp3 =>
          exact ⟨⟨3, by simp [h2, h3]⟩,
            ⟨("### Key Points" :: displayResponse kp) ++
              "### Recommendations" :: displayResponse rsp3,
             by simp [h2, h3]⟩⟩

/-- Witness for C6: with a team that fails both derived calls, the issued
queries are an initial segment of the three intended ones and the analysis
display survives. -/
theorem derived_calls_feed_first_analysis_witness :
    flakyTeam "analyze" = .ok ⟨some "the analysis", []⟩ ∧
    ((∃ k, (analyzeHandler flakyTeam "analyze" "Contract Analyst").1 =
      List.take k ["analyze",
        keyPointsQuery (some "the analysis") "Contract Analyst",
        recommendationsQuery (some "the analysis") "Contract Analyst"]) ∧
    (∃ rest, (analyzeHandler flakyTeam "analyze" "Contract Analyst").2 =
      ("### Detailed Analysis" ::
        displayResponse ⟨some "the analysis", []⟩) ++ rest)) :=
  ⟨rfl, derived_calls_feed_first_analysis flakyTeam "analyze"
    "Contract Analyst" ⟨some "the analysis", []⟩ rfl⟩

/-- A record of a different document survives an upsert into a collection:
upsert only replaces the record of the same (docId, chunkIndex) identity. -/
theorem mem_upsertRec_of_docId_ne (c : Collection) (rn r : ChunkRecord)
    (hd : r.docId ≠ rn.docId) (hr : r ∈ c.records) :
    r ∈ (c.upsertRec rn).records := by
  simp only [Collection.upsertRec, List.mem_append]
  exact Or.inl (List.mem_filter.mpr ⟨hr, by simp [hd]⟩)

/-- Store-level: a record of a different document survives an upsert. -/
theorem hasRecord_upsertRec (s : Store) (cname : String) (rn r : ChunkRecord)
    (hd : r.docId ≠ rn.docId) (hr : s.hasRecord cname r) :
    (s.upsertRec cname rn).hasRecord cname r := by
  obtain ⟨c, hc, hcn, hmem⟩ := hr
  have hb : (c.name == cname) = true := by simp [hcn]
  refine ⟨c.upsertRec rn, ?_, ?_, mem_upsertRec_of_docId_ne c rn r hd hmem⟩
  · simp only [Store.upsertRec]
    exact List.mem_map.mpr ⟨c, hc, by simp [hb]⟩
  · simpa [Collection.upsertRec] using hcn

/-- A record of a different document survives the whole embed-and-upsert
loop, whether it completes or aborts on an embedding failure. -/
theorem hasRecord_upsertChunks (embedSvc : String → Option (List Int))
    (docId : String) (r : ChunkRecord) (hd : r.docId ≠ docId) :
    ∀ (chunks : List String) (i : Nat) (s : Store),
      s.hasRecord "legal_knowledge" r →
      (ingestFinalStore (upsertChunks embedSvc docId chunks i s)).hasRecord
        "legal_knowledge" r
  | [], _, s, h => by simpa [upsertChunks, ingestFinalStore] using h
  | t :: ts, i, s, h => by
      cases he : embedSvc t with
      | none => simpa [upsertChunks, he, ingestFinalStore] using h
      | some v =>
          simp only [upsertChunks, he]
          exact hasRecord_upsertChunks embedSvc docId r hd ts (i + 1) _
            (hasRecord_upsertRec s "legal_knowledge" ⟨docId, i, t, v⟩ r hd h)

/-- Mapping a name-preserving function over the collections leaves the
collection names unchanged. -/
theorem collectionNames_mapNamePreserving (g : Collection → Collection)
    (hg : ∀ c, (g c).name = c.name) (cs : List Collection) :
    (Store.mk (cs.map g)).collectionNames = (Store.mk cs).collectionNames := by
  simp [Store.collectionNames, List.map_map, Function.comp, hg]

/-- Upserting a record does not create or delete collections. -/
theorem collectionNames_upsertRec (s : Store) (cname : String)
    (rn : ChunkRecord) :
    (s.upsertRec cname rn).collectionNames = s.collectionNames := by
  have hg : ∀ c : Collection,
      ((fun c => if c.name == cname then c.upsertRec rn else c) c).name
        = c.name := by
    intro c
    by_cases h : (c.name == cname) = true <;> simp [h, Collection.upsertRec]
  exact collectionNames_mapNamePreserving _ hg s.collections

/-- Wiping a collection's contents does not create or delete collections. -/
theorem collectionNames_wipe (s : Store) (cname : String) :
    (s.wipe cname).collectionNames = s.collectionNames := by
  have hg : ∀ c : Collection,
      ((fun c => if c.name == cname then { c with records := [] } else c) c).name
        = c.name := by
    intro c
    by_cases h : (c.name == cname) = true <;> simp [h]
  exact collectionNames_mapNamePreserving _ hg s.collections

/-- The embed-and-upsert loop does not create or delete collections. -/
theorem collectionNames_upsertChunks (embedSvc : String → Option (List Int))
    (docId : String) :
    ∀ (chunks : List String) (i : Nat) (s : Store),
      (ingestFinalStore (upsertChunks embedSvc docId chunks i s)).collectionNames
        = s.collectionNames
  | [], _, s => by simp [upsertChunks, ingestFinalStore]
  | t :: ts, i, s => by
      cases he : embedSvc t with
      | none => simp [upsertChunks, he, ingestFinalStore]
      | some v =>
          simp only [upsertChunks, he]
          rw [collectionNames_upsertChunks embedSvc docId ts (i + 1) _]
          exact collectionNames_upsertRec s "legal_knowledge" ⟨docId, i, t, v⟩

/-- After wiping a collection, it holds no record. -/
theorem not_hasRecord_wipe (s : Store) (cname : String) (r : ChunkRecord) :
    ¬ (s.wipe cname).hasRecord cname r := by
  rintro ⟨c', hc', hcn, hmem⟩
  simp only [Store.wipe] at hc'
  obtain ⟨c, _, rfl⟩ := List.mem_map.mp hc'
  by_cases hb : (c.name == cname) = true
  · simp [hb] at hmem
  · simp [hb] at hcn
    exact hb (by simp [hcn])

/-- Any record found after an upsert is either the upserted record or was
already in the store. -/
theorem hasRecord_upsertRec_elim (s : Store) (cname : String)
    (rn r : ChunkRecord) (h : (s.upsertRec cname rn).hasRecord cname r) :
    r = rn ∨ s.hasRecord cname r := by
  obtain ⟨c', hc', hcn, hmem⟩ := h
  simp only [Store.upsertRec] at hc'
  obtain ⟨c, hc, rfl⟩ := List.mem_map.mp hc'
  by_cases hb : (c.name == cname) = true
  · simp only [hb, if_pos, Collection.upsertRec, List.mem_append,
      List.mem_filter, List.mem_singleton] at hcn hmem
    rcases hmem with hmem | hmem
    · exact Or.inr ⟨c, hc, by simpa using hb, hmem.1⟩
    · exact Or.inl hmem
  · simp only [hb, if_neg, Bool.false_eq_true, not_false_iff] at hcn hmem
    exact Or.inr ⟨c, hc, hcn, hmem⟩

/-- Every record the embed-and-upsert loop leaves in the collection has the
ingested document's identifier, provided that was already true before. -/
theorem upsertChunks_docId (embedSvc : String → Option (List Int))
    (docId : String) :
    ∀ (chunks : List String) (i : Nat) (s : Store),
      (∀ r, s.hasRecord "legal_knowledge" r → r.docId = docId) →
      ∀ r, (ingestFinalStore (upsertChunks embedSvc docId chunks i s)).hasRecord
        "legal_knowledge" r → r.docId = docId
  | [], _, s, hs, r, h => hs r (by simpa [upsertChunks, ingestFinalStore] using h)
  | t :: ts, i, s, hs, r, h => by
      cases he : embedSvc t with
      | none =>
          exact hs r (by simpa [upsertChunks, he, ingestFinalStore] using h)
      | some v =>
          refine upsertChunks_docId embedSvc docId ts (i + 1)
            (s.upsertRec "legal_knowledge" ⟨docId, i, t, v⟩) ?_ r ?_
          · intro r' hr'
            rcases hasRecord_upsertRec_elim s "legal_knowledge"
              ⟨docId, i, t, v⟩ r' hr' with h1 | h1
            · rw [h1]
            · exact hs r' h1
          · simpa [upsertChunks, he] using h

/-- Claim C2: the named collection, once created, is never implicitly
deleted.  For a collection `c` already in the store: the collection-ensuring
operation keeps it (and leaves every existing collection untouched);
retrieval is a pure read returning the store unchanged; ingestion never
creates or deletes a collection, whatever the recreate flag and even when
it aborts partway; ingestion without a recreation request keeps every prior
record of other documents in place; and recreation is what wipes prior
contents — after a recreating ingestion, every record in the collection
belongs to the newly ingested document. -/
theorem collection_never_implicitly_deleted
    (embedSvc : String → Option (List Int)) (f : UploadedFile)
    (docId q : String) (k : Nat) (s s1 : Store) (c : Collection)
    (r1 r2 : ChunkRecord) (recreate : Bool)
    (hc : c ∈ s.collections)
    (h1 : initQdrantEnsure s = .ok s1)
    (hname : c.name = "legal_knowledge")
    (hr1 : r1 ∈ c.records) (hd1 : r1.docId ≠ docId)
    (hok : f.corrupted = false)
    (hr2 : (ingestFinalStore (ingest embedSvc f docId true s)).hasRecord
      "legal_knowledge" r2) :
    c ∈ s1.collections ∧
    (retrieve embedSvc s q k).2 = s ∧
    (ingestFinalStore (ingest embedSvc f docId recreate s)).collectionNames
      = s.collectionNames ∧
    (ingestFinalStore (ingest embedSvc f docId false s)).hasRecord
      "legal_knowledge" r1 ∧
    r2.docId = docId := by
  refine ⟨?_, rfl, ?_, ?_, ?_⟩
  · by_cases hm : "legal_knowledge" ∈ s.collectionNames
    · simp only [initQdrantEnsure, if_pos hm, Except.ok.injEq] at h1
      subst h1
      exact hc
    · simp only [initQdrantEnsure, if_neg hm, createCollection,
        Except.ok.injEq] at h1
      subst h1
      exact List.mem_append.mpr (Or.inl hc)
  · simp only [ingest, extractChunks, hok, Bool.false_eq_true, if_neg,
      not_false_iff]
    cases recreate with
    | false =>
        simpa using collectionNames_upsertChunks embedSvc docId f.chunkTexts 0 s
    | true =>
        rw [if_pos rfl, collectionNames_upsertChunks embedSvc docId
          f.chunkTexts 0 (s.wipe "legal_knowledge")]
        exact collectionNames_wipe s "legal_knowledge"
  · simp only [ingest, extractChunks, hok, Bool.false_eq_true, if_neg,
      not_false_iff, Bool.false_eq_true]
    exact hasRecord_upsertChunks embedSvc docId r1 hd1 f.chunkTexts 0 s
      ⟨c, hc, hname, hr1⟩
  · simp only [ingest, extractChunks, hok, Bool.false_eq_true, if_neg,
      not_false_iff, if_pos] at hr2
    exact upsertChunks_docId embedSvc docId f.chunkTexts 0
      (s.wipe "legal_knowledge")
      (fun r hr => absurd hr (not_hasRecord_wipe s "legal_knowledge" r))
      r2 hr2

/-- Witness for C2: a store holding one prior record of document "old"; a
readable one-chunk file for document "new" ingested with recreation. -/
theorem collection_never_implicitly_deleted_witness :
    ((⟨"legal_knowledge", 1536, Distance.cosine, [⟨"old", 0, "t0", [1]⟩]⟩ :
        Collection) ∈
      (Store.mk [⟨"legal_knowledge", 1536, Distance.cosine,
        [⟨"old", 0, "t0", [1]⟩]⟩]).collections) ∧
    (initQdrantEnsure ⟨[⟨"legal_knowledge", 1536, Distance.cosine,
        [⟨"old", 0, "t0", [1]⟩]⟩]⟩ =
      .ok ⟨[⟨"legal_knowledge", 1536, Distance.cosine,
        [⟨"old", 0, "t0", [1]⟩]⟩]⟩) ∧
    ((UploadedFile.mk "a.pdf" false ["c0"]).corrupted = false) ∧
    ((ingestFinalStore (ingest (fun _ => some [2])
        (UploadedFile.mk "a.pdf" false ["c0"]) "new" true
        ⟨[⟨"legal_knowledge", 1536, Distance.cosine,
          [⟨"old", 0, "t0", [1]⟩]⟩]⟩)).hasRecord "legal_knowledge"
      ⟨"new", 0, "c0", [2]⟩) ∧
    ((⟨"legal_knowledge", 1536, Distance.cosine, [⟨"old", 0, "t0", [1]⟩]⟩ :
        Collection) ∈
      (Store.mk [⟨"legal_knowledge", 1536, Distance.cosine,
        [⟨"old", 0, "t0", [1]⟩]⟩]).collections) ∧
    (retrieve (fun _ => some [2]) ⟨[⟨"legal_knowledge", 1536, Distance.cosine,
        [⟨"old", 0, "t0", [1]⟩]⟩]⟩ "q" 1).2 =
      ⟨[⟨"legal_knowledge", 1536, Distance.cosine,
        [⟨"old", 0, "t0", [1]⟩]⟩]⟩ ∧
    (ingestFinalStore (ingest (fun _ => some [2])
        (UploadedFile.mk "a.pdf" false ["c0"]) "new" true
        ⟨[⟨"legal_knowledge", 1536, Distance.cosine,
          [⟨"old", 0, "t0", [1]⟩]⟩]⟩)).collectionNames =
      (Store.mk [⟨"legal_knowledge", 1536, Distance.cosine,
        [⟨"old", 0, "t0", [1]⟩]⟩]).collectionNames ∧
    (ingestFinalStore (ingest (fun _ => some [2])
        (UploadedFile.mk "a.pdf" false ["c0"]) "new" false
        ⟨[⟨"legal_knowledge", 1536, Distance.cosine,
          [⟨"old", 0, "t0", [1]⟩]⟩]⟩)).hasRecord "legal_knowledge"
      ⟨"old", 0, "t0", [1]⟩ ∧
    (ChunkRecord.mk "new" 0 "c0" [2]).docId = "new" := by
  refine ⟨by decide, rfl, rfl, by decide, ?_⟩
  have h := collection_never_implicitly_deleted (fun _ => some [2])
    (UploadedFile.mk "a.pdf" false ["c0"]) "new" "q" 1
    ⟨[⟨"legal_knowledge", 1536, Distance.cosine, [⟨"old", 0, "t0", [1]⟩]⟩]⟩
    ⟨[⟨"legal_knowledge", 1536, Distance.cosine, [⟨"old", 0, "t0", [1]⟩]⟩]⟩
    ⟨"legal_knowledge", 1536, Distance.cosine, [⟨"old", 0, "t0", [1]⟩]⟩
    ⟨"old", 0, "t0", [1]⟩ ⟨"new", 0, "c0", [2]⟩ true
    (by decide) rfl rfl (by decide) (by decide) rfl (by decide)
  exact ⟨h.1, h.2.1, h.2.2.1, h.2.2.2.1, h.2.2.2.2⟩

end LegalLLM
